import Mathlib

/-!
Verification of the AACSearch React SDK networking and query-orchestration
layer against its specification.

The development shallowly embeds the TypeScript source:

* `AACSearch.Stream` — the chunked streaming-response loop of
  `AACSearchClientExtended.streamConversationalSearch`, together with a model
  of the platform's `JSON.parse` (`AACSearch.Json`).  JS strings are modelled
  as `List Char`; byte chunks are modelled as the character chunks produced by
  `TextDecoder.decode(value, stream: true)`, which withholds incomplete
  multi-byte UTF-8 sequences, so every decoded chunk consists of whole
  characters.
* `AACSearch.Request` — `AACSearchClient.request`, with the possible fetch
  outcomes enumerated and each line of the try/catch transcribed.
* `AACSearch.InstantSearch` — the `useInstantSearch` hook: filter compilation,
  `addFilter`/`removeFilter`, and the `performSearch` overlap behaviour as a
  small event-trace machine.
* `AACSearch.Realtime` — the WebSocket handlers of
  `AACSearchClientExtended.connectWebSocket` / `disconnectWebSocket` combined
  with the `useRealtime` hook state, again as an event-trace machine.
-/

namespace AACSearch

/-! ## A model of the platform JSON values and of JSON.parse

`JSON.parse` is a platform primitive, not repository code; it is modelled
here by a standard recursive-descent parser over the JSON grammar.  Numbers
are kept as their source lexeme (no floating-point arithmetic is performed on
them anywhere in the code under verification). -/

inductive Json where
  | null
  | bool (b : Bool)
  | num (lexeme : String)
  | str (s : String)
  | arr (elems : List Json)
  | obj (fields : List (String × Json))

/-- The character, written via its code point to keep string literals plain. -/
def lbrace : Char := Char.ofNat 123

/-- The closing-brace character. -/
def rbrace : Char := Char.ofNat 125

def isJsonWs (c : Char) : Bool :=
  c == ' ' || c == '\t' || c == '\n' || c == '\r'

def skipWs : List Char → List Char
  | [] => []
  | c :: cs => if isJsonWs c then skipWs cs else c :: cs

def hexDigitVal (c : Char) : Option Nat :=
  if '0' ≤ c ∧ c ≤ '9' then some (c.toNat - '0'.toNat)
  else if 'a' ≤ c ∧ c ≤ 'f' then some (c.toNat - 'a'.toNat + 10)
  else if 'A' ≤ c ∧ c ≤ 'F' then some (c.toNat - 'A'.toNat + 10)
  else none

def escapeCharVal (c : Char) : Option Char :=
  if c = '"' then some '"'
  else if c = '\\' then some '\\'
  else if c = '/' then some '/'
  else if c = 'b' then some (Char.ofNat 8)
  else if c = 'f' then some (Char.ofNat 12)
  else if c = 'n' then some '\n'
  else if c = 'r' then some '\r'
  else if c = 't' then some '\t'
  else none

/-- Body of a JSON string literal, after the opening quote: returns the
decoded characters and the input remaining after the closing quote. -/
def parseStringBody : List Char → Option (List Char × List Char)
  | [] => none
  | '"' :: rest => some ([], rest)
  | '\\' :: 'u' :: a :: b :: c :: d :: rest => do
      let ha ← hexDigitVal a
      let hb ← hexDigitVal b
      let hc ← hexDigitVal c
      let hd ← hexDigitVal d
      let (s, r) ← parseStringBody rest
      some (Char.ofNat (((ha * 16 + hb) * 16 + hc) * 16 + hd) :: s, r)
  | '\\' :: e :: rest => do
      let c ← escapeCharVal e
      let (s, r) ← parseStringBody rest
      some (c :: s, r)
  | c :: rest =>
      if c.toNat < 32 then none
      else do
        let (s, r) ← parseStringBody rest
        some (c :: s, r)

def digitSpan (cs : List Char) : List Char × List Char :=
  (cs.takeWhile Char.isDigit, cs.dropWhile Char.isDigit)

def parseFracPart (cs : List Char) : Option (List Char × List Char) :=
  match cs with
  | '.' :: r =>
    match digitSpan r with
    | ([], _) => none
    | (fs, r2) => some ('.' :: fs, r2)
  | _ => some ([], cs)

def parseExpPart (cs : List Char) : Option (List Char × List Char) :=
  match cs with
  | e :: r =>
    if e = 'e' ∨ e = 'E' then
      let sr : List Char × List Char :=
        match r with
        | '+' :: r2 => (['+'], r2)
        | '-' :: r2 => (['-'], r2)
        | _ => ([], r)
      match digitSpan sr.2 with
      | ([], _) => none
      | (ds, r2) => some (e :: sr.1 ++ ds, r2)
    else some ([], e :: r)
  | [] => some ([], [])

/-- JSON number lexeme: `-? int frac? exp?`, no leading zeros. -/
def parseNumberLex (cs : List Char) : Option (List Char × List Char) :=
  let sr : List Char × List Char :=
    match cs with
    | '-' :: r => (['-'], r)
    | _ => ([], cs)
  match digitSpan sr.2 with
  | ([], _) => none
  | (d :: ds, cs2) =>
    if d = '0' ∧ ds ≠ [] then none
    else do
      let (f, cs3) ← parseFracPart cs2
      let (x, cs4) ← parseExpPart cs3
      some (sr.1 ++ d :: ds ++ f ++ x, cs4)

mutual

def parseVal : Nat → List Char → Option (Json × List Char)
  | 0, _ => none
  | fuel + 1, cs =>
    match skipWs cs with
    | [] => none
    | c :: rest =>
      if c = '"' then
        match parseStringBody rest with
        | some (s, r) => some (.str (String.mk s), r)
        | none => none
      else if c = lbrace then
        match skipWs rest with
        | c2 :: r2 =>
          if c2 = rbrace then some (.obj [], r2)
          else
            match parseMembers fuel (c2 :: r2) with
            | some (fs, r3) => some (.obj fs, r3)
            | none => none
        | [] => none
      else if c = '[' then
        match skipWs rest with
        | c2 :: r2 =>
          if c2 = ']' then some (.arr [], r2)
          else
            match parseElems fuel (c2 :: r2) with
            | some (es, r3) => some (.arr es, r3)
            | none => none
        | [] => none
      else if c = 't' then
        match rest with
        | 'r' :: 'u' :: 'e' :: r => some (.bool true, r)
        | _ => none
      else if c = 'f' then
        match rest with
        | 'a' :: 'l' :: 's' :: 'e' :: r => some (.bool false, r)
        | _ => none
      else if c = 'n' then
        match rest with
        | 'u' :: 'l' :: 'l' :: r => some (.null, r)
        | _ => none
      else
        match parseNumberLex (c :: rest) with
        | some (lex, r) => some (.num (String.mk lex), r)
        | none => none

def parseMembers : Nat → List Char → Option (List (String × Json) × List Char)
  | 0, _ => none
  | fuel + 1, cs =>
    match skipWs cs with
    | '"' :: rest =>
      match parseStringBody rest with
      | some (k, r1) =>
        match skipWs r1 with
        | ':' :: r2 =>
          match parseVal fuel r2 with
          | some (v, r3) =>
            match skipWs r3 with
            | ',' :: r4 =>
              match parseMembers fuel r4 with
              | some (fs, r5) => some ((String.mk k, v) :: fs, r5)
              | none => none
            | c :: r4 => if c = rbrace then some ([(String.mk k, v)], r4) else none
            | [] => none
          | none => none
        | _ => none
      | none => none
    | _ => none

def parseElems : Nat → List Char → Option (List Json × List Char)
  | 0, _ => none
  | fuel + 1, cs =>
    match parseVal fuel cs with
    | some (v, r1) =>
      match skipWs r1 with
      | ',' :: r2 =>
        match parseElems fuel r2 with
        | some (es, r3) => some (v :: es, r3)
        | none => none
      | ']' :: r2 => some ([v], r2)
      | _ => none
    | none => none

end

/-- Model of `JSON.parse`: the whole input must be consumed (up to trailing
whitespace), otherwise the parse throws. -/
def parseJson (cs : List Char) : Option Json :=
  match parseVal (cs.length + 1) cs with
  | some (v, rest) => if skipWs rest = [] then some v else none
  | none => none

/-- JS property access `j[key]` on a parsed JSON value: `none` models
`undefined`.  Duplicate keys: `JSON.parse` keeps the last occurrence. -/
def getField (j : Json) (key : String) : Option Json :=
  match j with
  | .obj fs => fs.foldl (fun acc kv => if kv.1 = key then some kv.2 else acc) none
  | _ => none

/-- JS truthiness of a JSON value (numbers are falsy exactly when every digit
of the lexeme is zero). -/
def jsTruthy : Json → Bool
  | .null => false
  | .bool b => b
  | .num lex => lex.data.any (fun c => c.isDigit ∧ c ≠ '0')
  | .str s => !(s == "")
  | .arr _ => true
  | .obj _ => true

/-- JS string coercion, as performed by `fullAnswer += data.content`.
Modelled from the platform; the non-empty-array rendering is abbreviated
(token payloads carry string content in the protocol). -/
def jsToString : Option Json → String
  | none => "undefined"
  | some .null => "null"
  | some (.bool true) => "true"
  | some (.bool false) => "false"
  | some (.num lex) => lex
  | some (.str s) => s
  | some (.arr _) => ""
  | some (.obj _) => "[object Object]"

/-- JS `x || d` where `x` is a property access (`none` = `undefined`). -/
def jsOrDefault (o : Option Json) (d : Json) : Json :=
  match o with
  | some v => if jsTruthy v then v else d
  | none => d

/-- Strict equality `x === "s"` where `x` is a property access. -/
def jsonIsStrEq (o : Option Json) (s : String) : Bool :=
  match o with
  | some (.str t) => t == s
  | _ => false

end AACSearch

namespace AACSearch.Stream

/-! ## AACSearchClientExtended.streamConversationalSearch (part_008 lines 88-145)

The read loop decodes each chunk, splits it on newlines, and processes every
line of the chunk at once; there is no carry-over buffer between reads. -/

/-- `chunk.split('\n')` on a JS string, at the character level. -/
def splitNl : List Char → List (List Char)
  | [] => [[]]
  | c :: rest =>
    if c = '\n' then [] :: splitNl rest
    else
      match splitNl rest with
      | [] => [[c]]
      | l :: ls => (c :: l) :: ls

/-- Local state of the read loop: `fullAnswer`, the `result` variable
(`none` models it having been assigned `undefined`), and the arguments passed
to `options.onChunk` in order. -/
structure StreamState where
  fullAnswer : String
  resultVal : Option Json
  emitted : List String

def initStreamState : StreamState :=
  { fullAnswer := "", resultVal := some (.obj []), emitted := [] }

def dataPrefix : List Char := String.data "data: "

/-- One iteration of `for (const line of lines)`.  A line that does not start
with `data: ` is skipped.  On a `data: ` line, `JSON.parse(line.slice(6))`
throws on malformed input (`.error`), which escapes the loop, invokes
`onError` and rejects the call; `data.type` on a parsed `null` likewise
throws a TypeError. -/
def processLine (st : StreamState) (line : List Char) : Except Unit StreamState :=
  if dataPrefix.isPrefixOf line then
    match parseJson (line.drop 6) with
    | none => .error ()
    | some data =>
      match data with
      | .null => .error ()
      | _ =>
        if jsonIsStrEq (getField data "type") "token" then
          let piece := jsToString (getField data "content")
          .ok { st with fullAnswer := st.fullAnswer ++ piece,
                        emitted := st.emitted ++ [piece] }
        else if jsonIsStrEq (getField data "type") "result" then
          .ok { st with resultVal := getField data "data" }
        else .ok st
  else .ok st

def processLines (st : StreamState) : List (List Char) → Except Unit StreamState
  | [] => .ok st
  | l :: ls =>
    match processLine st l with
    | .ok st2 => processLines st2 ls
    | .error e => .error e

/-- One iteration of the `while (true)` read loop on a decoded chunk. -/
def processChunk (st : StreamState) (chunk : List Char) : Except Unit StreamState :=
  processLines st (splitNl chunk)

def runChunks (st : StreamState) : List (List Char) → Except Unit StreamState
  | [] => .ok st
  | c :: cs =>
    match processChunk st c with
    | .ok st2 => runChunks st2 cs
    | .error e => .error e

structure ConversationalSearchResult where
  conversation_id : Json
  answer : String
  sources : Json
  suggested_questions : Json

/-- The `return` statement after the loop: `result.conversation_id || ''`
etc.; property access on `result = undefined` throws. -/
def finalize (st : StreamState) : Except Unit ConversationalSearchResult :=
  match st.resultVal with
  | none => .error ()
  | some r =>
    .ok { conversation_id := jsOrDefault (getField r "conversation_id") (.str ""),
          answer := st.fullAnswer,
          sources := jsOrDefault (getField r "sources")
            (.obj [("hits", .arr []), ("found", .num "0")]),
          suggested_questions := jsOrDefault (getField r "suggested_questions") (.arr []) }

/-- The whole call, as a function of the decoded text chunks delivered by the
reader. -/
def streamConversationalSearch (chunks : List (List Char)) :
    Except Unit ConversationalSearchResult :=
  match runChunks initStreamState chunks with
  | .ok st => finalize st
  | .error e => .error e

/-- The reassembled answer, `none` when the call rejects. -/
def runAnswer (chunks : List (List Char)) : Option String :=
  match streamConversationalSearch chunks with
  | .ok r => some r.answer
  | .error _ => none

def strChunk (s : String) : List Char := s.data

end AACSearch.Stream

namespace AACSearch.Request

/-! ## AACSearchClient.request (AACSearchClient.ts lines 43-102)

One call is `setTimeout(abort, timeout); try: fetch -> status check -> json();
catch: clearTimeout; AbortError -> TIMEOUT; else rethrow`.  The asynchronous
transport is abstracted into an enumerated outcome of the `fetch` await (the
timer can only fire while `fetch` is pending: between `fetch` resolving and
`clearTimeout` at line 69 there is no suspension point). -/

/-- A JS value thrown by `request`: either the plain `AACSearchError` object
literal the code constructs (whose `.name` is `undefined`), or an `Error`
instance raised by the platform (`TypeError`, `SyntaxError`, `AbortError`). -/
inductive JsErr where
  | normalized (message : String) (code : Option String)
      (statusCode : Option Nat) (details : Option String)
  | rawException (name : String) (message : String)
deriving DecidableEq

/-- `err.name` (`none` = `undefined`, for object literals). -/
def JsErr.nameField : JsErr → Option String
  | .normalized _ _ _ _ => none
  | .rawException n _ => some n

def JsErr.isNormalized : JsErr → Bool
  | .normalized _ _ _ _ => true
  | .rawException _ _ => false

/-- Parsed body of a non-2xx response (`errorData`); each field may be
absent. -/
structure ErrBody where
  message : Option String
  code : Option String
  details : Option String

/-- JS `x || d` for a string-typed property (`undefined` and `''` are
falsy). -/
def jsOrStr (o : Option String) (d : String) : String :=
  match o with
  | some s => if s = "" then d else s
  | none => d

/-- Outcome of the awaited `fetch` (plus body parsing):
timer fired first / network failure / non-2xx (body `none` = not JSON) /
2xx (body `none` = `response.json()` rejects). -/
inductive FetchOutcome (α : Type) where
  | timedOut
  | networkFail (message : String)
  | httpError (status : Nat) (statusText : String) (body : Option ErrBody)
  | httpOk (body : Option α)

/-- The `try` block: everything up to and including the `return` / `throw`,
transcribed line by line. -/
def tryBody {α : Type} : FetchOutcome α → Except JsErr α
  | .timedOut => .error (.rawException "AbortError" "The operation was aborted")
  | .networkFail m => .error (.rawException "TypeError" m)
  | .httpError status statusText body =>
    match body with
    | some b =>
      .error (.normalized (jsOrStr b.message ("API request failed: " ++ statusText))
        b.code (some status) b.details)
    | none =>
      .error (.normalized ("API request failed: " ++ statusText) none (some status) none)
  | .httpOk (some v) => .ok v
  | .httpOk none => .error (.rawException "SyntaxError" "Unexpected end of JSON input")

/-- Did `fetch` itself resolve (so that `clearTimeout` at line 69 ran)? -/
def fetchResolved {α : Type} : FetchOutcome α → Bool
  | .httpError _ _ _ => true
  | .httpOk _ => true
  | _ => false

/-- Did the timeout timer fire (calling `controller.abort()`)? -/
def timerFired {α : Type} : FetchOutcome α → Bool
  | .timedOut => true
  | _ => false

structure RequestRun (α : Type) where
  result : Except JsErr α
  /-- `clearTimeout(timeoutId)` at line 69 executed. -/
  clearedAfterFetch : Bool
  /-- `clearTimeout(timeoutId)` at line 91 (inside `catch`) executed. -/
  clearedInCatch : Bool
  /-- `controller.abort()` was invoked on the in-flight fetch. -/
  fetchAborted : Bool

/-- The whole of `request`: run the try block, then the catch clause. -/
def request {α : Type} (o : FetchOutcome α) : RequestRun α :=
  match tryBody o with
  | .ok v =>
    { result := .ok v, clearedAfterFetch := fetchResolved o,
      clearedInCatch := false, fetchAborted := timerFired o }
  | .error e =>
    { result := .error
        (if e.nameField = some "AbortError" then
          .normalized "Request timeout" (some "TIMEOUT") none none
        else e),
      clearedAfterFetch := fetchResolved o,
      clearedInCatch := true, fetchAborted := timerFired o }

/-- The timer never dangles after resolution: it was cleared on some path, or
it already fired. -/
def noDanglingTimer {α : Type} (o : FetchOutcome α) (r : RequestRun α) : Bool :=
  r.clearedAfterFetch || r.clearedInCatch || timerFired o

/-- Is the value reaching the caller on a failure a `NormalizedError`?
(vacuously true on success). -/
def errNormalized {α : Type} : Except JsErr α → Bool
  | .error e => e.isNormalized
  | .ok _ => true

end AACSearch.Request

namespace AACSearch.InstantSearch

/-! ## useInstantSearch (part_005 lines 283-476) -/

/-- The `filters` React state: a JS object mapping field name to the selected
values, keys unique and in insertion order. -/
abbrev Filters := List (String × List String)

def lookupField : Filters → String → Option (List String)
  | [], _ => none
  | kv :: rest, f => if kv.1 = f then some kv.2 else lookupField rest f

/-- JS spread `(...prev, [field]: vs)`: replaces in place when the key
exists, appends otherwise. -/
def setField : Filters → String → List String → Filters
  | [], f, vs => [(f, vs)]
  | kv :: rest, f, vs =>
    if kv.1 = f then (kv.1, vs) :: rest else kv :: setField rest f vs

/-- JS rest-destructuring `const ([field]: _, ...rest) = prev`. -/
def removeField (fs : Filters) (f : String) : Filters :=
  fs.filter (fun kv => kv.1 ≠ f)

/-- `addFilter` (lines 400-412), the `setFilters` updater. -/
def addFilterFilters (prev : Filters) (field value : String) : Filters :=
  let currentValues := (lookupField prev field).getD []
  if value ∈ currentValues then prev
  else setField prev field (currentValues ++ [value])

/-- `removeFilter` (lines 414-430), the `setFilters` updater. -/
def removeFilterFilters (prev : Filters) (field value : String) : Filters :=
  let currentValues := (lookupField prev field).getD []
  let newValues := currentValues.filter (fun v => v ≠ value)
  if newValues = [] then removeField prev field
  else setField prev field newValues

/-- The filter/page slice of the hook state touched by the filter
mutators. -/
structure FilterPageState where
  filters : Filters
  page : Nat

/-- `addFilter`: updates the filters and resets `page` to 1. -/
def addFilter (s : FilterPageState) (field value : String) : FilterPageState :=
  { filters := addFilterFilters s.filters field value, page := 1 }

/-- `removeFilter`: updates the filters and resets `page` to 1. -/
def removeFilter (s : FilterPageState) (field value : String) : FilterPageState :=
  { filters := removeFilterFilters s.filters field value, page := 1 }

/-- Lines 324-330: `filterParts`, built by `forEach`/`push` over
`Object.entries(filters)`. -/
def filterParts (filters : Filters) : List String :=
  filters.foldl
    (fun parts kv =>
      if kv.2.length > 0 then
        parts ++ ["(" ++ String.intercalate " || " (kv.2.map (fun v => kv.1 ++ ":=" ++ v)) ++ ")"]
      else parts)
    []

/-- Line 331: `filter_by` (`undefined` when no parts). -/
def filter_by (filters : Filters) : Option String :=
  let parts := filterParts filters
  if parts.length > 0 then some (String.intercalate " && " parts) else none

/-- Line 334: `q: searchQuery || '*'`. -/
def compileQ (searchQuery : String) : String :=
  if searchQuery = "" then "*" else searchQuery

/-! ### The overlap behaviour of performSearch (lines 310-368)

Each invocation aborts the previous `AbortController` and installs a fresh
one, but the controller's signal is never attached to `client.search`
(`searchParams` carries no signal), so an aborted call's promise still
resolves and its continuation runs `setResults` unconditionally.  The machine
below replays the exact statements of `performSearch` for a trace of
invocation and resolution events; request `i`'s controller is identified
with `i`. -/

structure ISState where
  results : Option Nat
  loading : Bool
  error : Option String
  /-- `abortControllerRef.current`, as the id of the request owning it. -/
  ctrl : Option Nat
  /-- Controllers on which `.abort()` has been called. -/
  aborted : List Nat
deriving DecidableEq

def initISState : ISState :=
  { results := none, loading := false, error := none, ctrl := none, aborted := [] }

inductive ISEvent where
  /-- `performSearch` is invoked as call `i` (lines 312-320). -/
  | start (i : Nat)
  /-- Call `i`'s `client.search` promise resolves with result `v`; the
  continuation (lines 344-349 and the `finally`) runs. -/
  | completeOk (i : Nat) (v : Nat)
  /-- Call `i`'s `client.search` promise rejects with an error of the given
  `name`/`message`; the `catch` (lines 350-364) and `finally` run. -/
  | completeErr (i : Nat) (name : String) (message : String)

def isStep (s : ISState) (e : ISEvent) : ISState :=
  match e with
  | .start i =>
    { s with
      aborted := match s.ctrl with
        | some j => j :: s.aborted
        | none => s.aborted,
      ctrl := some i,
      loading := true,
      error := none }
  | .completeOk _ v =>
    { s with results := some v, loading := false, ctrl := none }
  | .completeErr _ name message =>
    let s2 := if name = "AbortError" then s else { s with error := some message }
    { s2 with loading := false, ctrl := none }

def isRun (s : ISState) : List ISEvent → ISState
  | [] => s
  | e :: es => isRun (isStep s e) es

/-- Lines 451-453: `totalPages`. -/
def totalPages (found : Option Nat) (resultsPerPage : Nat) : Nat :=
  match found with
  | some f => (f + resultsPerPage - 1) / resultsPerPage
  | none => 0

end AACSearch.InstantSearch

namespace AACSearch.Realtime

/-! ## connectWebSocket / disconnectWebSocket (part_008 lines 360-414)
combined with the useRealtime hook state (part_004).

`maxReconnectAttempts = 5`.  The onclose handler of a socket keeps firing
even after `disconnectWebSocket` has set `this.ws = null`; there is no
intentional-close flag. -/

def maxReconnectAttempts : Nat := 5

/-- The `onclose` reconnect policy (lines 397-402): increment first, then
delay `min(1000 * 2 ** attempts, 30000)`; returns the new counter and the
scheduled delay (`none` = no reconnect scheduled). -/
def backoffStep (attempts : Nat) : Nat × Option Nat :=
  if attempts < maxReconnectAttempts then
    (attempts + 1, some (min (1000 * 2 ^ (attempts + 1)) 30000))
  else (attempts, none)

/-- Delays scheduled by `n` consecutive close events starting from the given
counter value (no intervening open events). -/
def closeSeq (attempts : Nat) : Nat → List (Option Nat)
  | 0 => []
  | n + 1 =>
    let r := backoffStep attempts
    r.2 :: closeSeq r.1 n

/-- Inbound frame after `JSON.parse` routing in the hook's `onMessage`
callback. -/
inductive Frame where
  | connected
  | update (action : String) (collection : String)
  /-- `JSON.parse(event.data)` threw: logged and dropped. -/
  | malformed

inductive WSEvent where
  /-- The socket's `open` event: `onopen` (lines 368-377). -/
  | transportOpen
  /-- The socket's `close` event: `onclose` (lines 393-403). -/
  | transportClose
  /-- The socket's `message` event: `onmessage` (lines 379-386) feeding the
  hook callback (part_004 lines 90-106). -/
  | frame (f : Frame)
  /-- The hook's `disconnect()` (part_004 lines 116-120), which calls
  `disconnectWebSocket()` (part_008 lines 409-414). -/
  | disconnectCall

structure WSState where
  /-- `this.ws !== null`. -/
  wsOpen : Bool
  /-- `this.wsReconnectAttempts`. -/
  attempts : Nat
  /-- The hook's `connected` state (authenticated from the caller's view). -/
  connected : Bool
  /-- The hook's `subscribedCollections`. -/
  subs : List String
deriving DecidableEq

/-- One event step; the second component is the reconnect delay scheduled by
this event, if any. -/
def wsStep (s : WSState) (e : WSEvent) : WSState × Option Nat :=
  match e with
  | .transportOpen =>
    -- onopen: `wsReconnectAttempts = 0`, then send the auth frame; the
    -- hook's `connected` state is untouched by the open event.
    ({ s with attempts := 0 }, none)
  | .transportClose =>
    let r := backoffStep s.attempts
    ({ s with attempts := r.1 }, r.2)
  | .frame .connected =>
    -- hook onMessage: `data.type === 'connected'` -> setConnected(true);
    -- nothing touches the attempt counter here.
    ({ s with connected := true }, none)
  | .frame (.update _ _) => (s, none)
  | .frame .malformed => (s, none)
  | .disconnectCall =>
    -- client: `if (this.ws) ( this.ws.close(); this.ws = null )`;
    -- hook: `setConnected(false); subscribedCollections.current.clear()`.
    -- When the socket was open, its close event fires afterwards and is a
    -- separate `transportClose` in the trace.
    ({ s with wsOpen := false, connected := false, subs := [] }, none)

/-- Run a trace, collecting the reconnect delay scheduled by each event. -/
def wsRun (s : WSState) : List WSEvent → WSState × List (Option Nat)
  | [] => (s, [])
  | e :: es =>
    let r := wsStep s e
    let rest := wsRun r.1 es
    (rest.1, r.2 :: rest.2)

end AACSearch.Realtime

namespace AACSearch.Conv

/-! ## AACSearchClientExtended.conversationalSearch (part_008 lines 66-83) -/

/-- The sink argument; only its presence matters for the dispatch. -/
structure StreamingOptions where
  hasOnChunk : Bool
  hasOnComplete : Bool
  hasOnError : Bool

structure ConversationalSearchParams where
  conversation_id : Option String
  message : String
  collection : String
  streaming : Option Bool

/-- `if (params.streaming && streamingOptions)` dispatch, abstracted over the
two callees: `request` yields the parsed body of the single POST to the given
path, and `streamCall` is `streamConversationalSearch(params, options)`. -/
def conversationalSearch {α : Type} (params : ConversationalSearchParams)
    (streamingOptions : Option StreamingOptions)
    (request : String → String → α) (streamCall : α) : α :=
  if params.streaming.getD false && streamingOptions.isSome then streamCall
  else request "POST" "/api/v1/search/conversational"

end AACSearch.Conv

/-! # Helper lemmas -/

namespace AACSearch.Stream

theorem splitNl_cons_ne (c : Char) (hc : c ≠ '\n') (rest : List Char) :
    splitNl (c :: rest) =
      match splitNl rest with
      | [] => [[c]]
      | l :: ls => (c :: l) :: ls := by
  simp [splitNl, hc]

/-- A text ending in a newline splits into some lines followed by a final
empty line, and splitting it with more text appended continues with the
split of that text. -/
theorem splitNl_structure (xs : List Char) :
    ∃ m0 M, splitNl (xs ++ ['\n']) = m0 :: (M ++ [[]]) ∧
      ∀ ys, splitNl (xs ++ '\n' :: ys) = m0 :: (M ++ splitNl ys) := by
  induction xs with
  | nil =>
    refine ⟨[], [], ?_, ?_⟩
    · simp [splitNl]
    · intro ys; simp [splitNl]
  | cons c xs ih =>
    obtain ⟨m0, M, h1, h2⟩ := ih
    by_cases hc : c = '\n'
    · subst hc
      refine ⟨[], m0 :: M, ?_, ?_⟩
      · simp [splitNl, h1]
      · intro ys; simp [splitNl, h2 ys]
    · refine ⟨c :: m0, M, ?_, ?_⟩
      · rw [List.cons_append, splitNl_cons_ne c hc, h1]
      · intro ys
        rw [List.cons_append, splitNl_cons_ne c hc, h2 ys]

theorem processLines_append (st : StreamState) (L1 L2 : List (List Char)) :
    processLines st (L1 ++ L2) =
      match processLines st L1 with
      | .ok st2 => processLines st2 L2
      | .error e => .error e := by
  induction L1 generalizing st with
  | nil => rfl
  | cons l ls ih =>
    simp only [List.cons_append, processLines]
    cases processLine st l with
    | ok st2 => exact ih st2
    | error e => rfl

/-- A trailing empty line is skipped by the loop (it does not start with
the `data: ` prefix). -/
theorem processLines_concat_nil (st : StreamState) (M : List (List Char)) :
    processLines st (M ++ [[]]) = processLines st M := by
  rw [processLines_append]
  cases h : processLines st M with
  | ok st2 => rfl
  | error e => rfl

theorem eq_append_of_getLastEq {c : List Char} {a : Char}
    (h : c.getLast? = some a) : ∃ xs, c = xs ++ [a] := by
  induction c with
  | nil => simp at h
  | cons b bs ih =>
    cases bs with
    | nil =>
      simp [List.getLast?] at h
      exact ⟨[], by simp [h]⟩
    | cons b2 bs2 =>
      rw [List.getLast?_cons_cons] at h
      obtain ⟨xs, hx⟩ := ih h
      exact ⟨b :: xs, by simp [hx]⟩

/-- Core of the chunk-boundary analysis: when every chunk ends exactly at a
record (newline) boundary, processing the chunks one read at a time equals
processing the whole content as one read. -/
theorem runChunks_eq_single (chunks : List (List Char)) (st : StreamState)
    (h : ∀ c ∈ chunks, c = [] ∨ c.getLast? = some '\n') :
    runChunks st chunks = processChunk st chunks.flatten := by
  induction chunks generalizing st with
  | nil => rfl
  | cons c cs ih =>
    have hcs : ∀ x ∈ cs, x = [] ∨ x.getLast? = some '\n' :=
      fun x hx => h x (List.mem_cons_of_mem c hx)
    cases h c (List.mem_cons_self c cs) with
    | inl hnil =>
      subst hnil
      have h0 : runChunks st (([] : List Char) :: cs) = runChunks st cs := rfl
      have hj : (([] : List Char) :: cs).flatten = cs.flatten := by simp
      rw [h0, hj]
      exact ih st hcs
    | inr hlast =>
      obtain ⟨xs, hxs⟩ := eq_append_of_getLastEq hlast
      subst hxs
      obtain ⟨m0, M, h1, h2⟩ := splitNl_structure xs
      have hchunk : processChunk st (xs ++ ['\n']) = processLines st (m0 :: M) := by
        show processLines st (splitNl (xs ++ ['\n'])) = _
        rw [h1, show m0 :: (M ++ [[]]) = (m0 :: M) ++ [[]] by simp,
          processLines_concat_nil]
      have hjoin : ((xs ++ ['\n']) :: cs).flatten = xs ++ '\n' :: cs.flatten := by
        simp
      show (match processChunk st (xs ++ ['\n']) with
            | .ok st2 => runChunks st2 cs
            | .error e => .error e) = processChunk st ((xs ++ ['\n']) :: cs).flatten
      rw [hchunk, hjoin]
      show _ = processLines st (splitNl (xs ++ '\n' :: cs.flatten))
      rw [h2 cs.flatten,
        show m0 :: (M ++ splitNl cs.flatten) = (m0 :: M) ++ splitNl cs.flatten by simp,
        processLines_append]
      cases hP : processLines st (m0 :: M) with
      | ok st2 => exact ih st2 hcs
      | error e => rfl

end AACSearch.Stream

/-! # Claim theorems -/

namespace AACSearch.InstantSearch

/-- C1: the claim says an older in-flight instant search whose response
arrives after a newer one was issued can never have its result applied to
the visible state, enforced by cancelling its request.  The code aborts the
previous AbortController but never attaches the controller's signal to
`client.search`, so the older call still resolves and its continuation runs
`setResults` unconditionally: at the failing interleaving (issue call 1,
issue call 2, call 2 resolves with result 22, call 1 resolves with result
11) the final visible result is the OLDER call's result 11 — even though
call 1's controller is in the aborted set.  The second conjunct shows the
newer result 22 had been applied before being overwritten. -/
theorem c1_stale_result_overwrites :
    isRun initISState
        [.start 1, .start 2, .completeOk 2 22, .completeOk 1 11] =
      { results := some 11, loading := false, error := none,
        ctrl := none, aborted := [1] } ∧
    isRun initISState [.start 1, .start 2, .completeOk 2 22] =
      { results := some 22, loading := false, error := none,
        ctrl := none, aborted := [1] } :=
  ⟨rfl, rfl⟩

/-- C8: filter compilation.  `(category: ("Electronics"))` with query text
`laptop` compiles to filter `(category:=Electronics)` and match query
`laptop`; adding `Audio` to the same field yields
`(category:=Electronics || category:=Audio)`; removing both values leaves
the field key absent entirely and no filter expression; field groups are
joined with ` && `; empty query text compiles to `*`; no filters (or a
field with an empty value list) yields no filter expression. -/
theorem c8_filter_compilation :
    filter_by [("category", ["Electronics"])] = some "(category:=Electronics)" ∧
    compileQ "laptop" = "laptop" ∧
    addFilterFilters [("category", ["Electronics"])] "category" "Audio" =
      [("category", ["Electronics", "Audio"])] ∧
    filter_by [("category", ["Electronics", "Audio"])] =
      some "(category:=Electronics || category:=Audio)" ∧
    removeFilterFilters
        (removeFilterFilters [("category", ["Electronics", "Audio"])] "category" "Audio")
        "category" "Electronics" = [] ∧
    lookupField
        (removeFilterFilters
          (removeFilterFilters [("category", ["Electronics", "Audio"])] "category" "Audio")
          "category" "Electronics") "category" = none ∧
    filter_by [] = none ∧
    filter_by [("category", [])] = none ∧
    compileQ "" = "*" ∧
    filter_by [("category", ["Electronics"]), ("brand", ["Sony", "JBL"])] =
      some "(category:=Electronics) && (brand:=Sony || brand:=JBL)" := by
  refine ⟨rfl, rfl, rfl, rfl, rfl, rfl, rfl, rfl, rfl, rfl⟩

/-- C9: `addFilter` is idempotent on the filter state — when the value is
already in the field's selected list the `setFilters` updater returns the
previous object unchanged — while `setPage(1)` still runs unconditionally. -/
theorem c9_addFilter_idempotent (s : FilterPageState) (field value : String)
    (h : value ∈ (lookupField s.filters field).getD []) :
    addFilter s field value = { filters := s.filters, page := 1 } := by
  unfold addFilter addFilterFilters
  simp only [if_pos h]

/-- Witness for C9 at a concrete state: value already present, page 7. -/
theorem c9_addFilter_idempotent_witness :
    "Electronics" ∈ (lookupField [("category", ["Electronics"])] "category").getD [] ∧
    addFilter { filters := [("category", ["Electronics"])], page := 7 }
        "category" "Electronics" =
      { filters := [("category", ["Electronics"])], page := 1 } :=
  ⟨by decide, c9_addFilter_idempotent _ _ _ (by decide)⟩

end AACSearch.InstantSearch

namespace AACSearch.Request

/-- C4: on the timeout outcome `request` produces the normalized
`(message: "Request timeout", code: "TIMEOUT")` error and the in-flight
fetch was aborted (the timer firing calls `controller.abort()` on the
signal passed to `fetch`); and on every outcome `clearTimeout` ran on the
exit path taken (line 69 after `fetch` resolves, line 91 in the catch), so
no timer dangles after resolution. -/
theorem c4_timeout_normalized_and_timer_cleared :
    (∀ α : Type, (request (.timedOut : FetchOutcome α)).result =
        .error (.normalized "Request timeout" (some "TIMEOUT") none none) ∧
      (request (.timedOut : FetchOutcome α)).fetchAborted = true) ∧
    (∀ (α : Type) (o : FetchOutcome α),
      ((request o).clearedAfterFetch || (request o).clearedInCatch) = true ∧
      noDanglingTimer o (request o) = true) := by
  constructor
  · intro α; exact ⟨rfl, rfl⟩
  · intro α o
    cases o with
    | timedOut => exact ⟨rfl, rfl⟩
    | networkFail m => exact ⟨rfl, rfl⟩
    | httpError st stx b => cases b <;> exact ⟨rfl, rfl⟩
    | httpOk b => cases b <;> exact ⟨rfl, rfl⟩

/-- C3 counterexample: a network failure (fetch rejecting with a TypeError)
is rethrown raw by the catch clause — the value reaching the caller is not
a NormalizedError — and so is a JSON parse failure of a 2xx body. -/
theorem c3_raw_exception_counterexample :
    (request (.networkFail "Failed to fetch" : FetchOutcome Unit)).result =
      .error (.rawException "TypeError" "Failed to fetch") ∧
    JsErr.isNormalized (.rawException "TypeError" "Failed to fetch") = false ∧
    (request (.httpOk none : FetchOutcome Unit)).result =
      .error (.rawException "SyntaxError" "Unexpected end of JSON input") :=
  ⟨rfl, rfl, rfl⟩

/-- C3 (amended): the timeout and non-2xx paths reach the caller as a
NormalizedError (timeout with code TIMEOUT; non-2xx with the status code and
any server-supplied fields), but a network failure or a JSON parse failure
of a success body is rethrown unchanged — those raw exceptions do cross the
request executor's boundary. -/
theorem c3_error_normalization_amended :
    (∀ (α : Type) (status : Nat) (statusText : String) (b : Option ErrBody),
      errNormalized (request (.httpError status statusText b : FetchOutcome α)).result = true) ∧
    (∀ α : Type, (request (.timedOut : FetchOutcome α)).result =
      .error (.normalized "Request timeout" (some "TIMEOUT") none none)) ∧
    (∀ (α : Type) (m : String), (request (.networkFail m : FetchOutcome α)).result =
      .error (.rawException "TypeError" m)) ∧
    (∀ α : Type, (request (.httpOk none : FetchOutcome α)).result =
      .error (.rawException "SyntaxError" "Unexpected end of JSON input")) := by
  refine ⟨?_, fun α => rfl, fun α m => rfl, fun α => rfl⟩
  intro α status statusText b
  cases b with
  | none => rfl
  | some bb => rfl

end AACSearch.Request

namespace AACSearch.Stream

/-- C2 counterexample: the same logical content, split at a byte boundary
inside the `data: ` record (between `da` and `ta: ...`), reassembles to a
different answer than the unsplit chunk: the record line straddles two
reads, neither fragment starts with `data: `, and the token is silently
dropped (answer `""` instead of `"hi"`).  There is no carry-over buffer
between reads. -/
theorem c2_arbitrary_split_counterexample :
    strChunk "da" ++ strChunk "ta: \x7b\"type\":\"token\",\"content\":\"hi\"\x7d\n" =
      strChunk "data: \x7b\"type\":\"token\",\"content\":\"hi\"\x7d\n" ∧
    runAnswer [strChunk "da",
               strChunk "ta: \x7b\"type\":\"token\",\"content\":\"hi\"\x7d\n"] = some "" ∧
    runAnswer [strChunk "data: \x7b\"type\":\"token\",\"content\":\"hi\"\x7d\n"] = some "hi" ∧
    runAnswer [strChunk "da",
               strChunk "ta: \x7b\"type\":\"token\",\"content\":\"hi\"\x7d\n"] ≠
      runAnswer [strChunk "data: \x7b\"type\":\"token\",\"content\":\"hi\"\x7d\n"] := by
  refine ⟨rfl, rfl, rfl, by decide⟩

/-- C2 (amended): the streaming parser is idempotent to chunk boundaries
only when every read ends exactly at a record (newline) boundary: for every
such chunking the whole call (answer, emitted chunks and final metadata)
equals feeding the content as a single unsplit chunk.  Splits inside a
`data: <json>` record line are not tolerated (no partial-line buffering);
sub-character UTF-8 splits are absorbed by `TextDecoder(stream: true)`
before this loop and need no buffering here. -/
theorem c2_record_boundary_chunking (chunks : List (List Char))
    (h : ∀ c ∈ chunks, c = [] ∨ c.getLast? = some '\n') :
    streamConversationalSearch chunks = streamConversationalSearch [chunks.flatten] := by
  unfold streamConversationalSearch
  rw [runChunks_eq_single chunks initStreamState h]
  have h2 : runChunks initStreamState [chunks.flatten] =
      processChunk initStreamState chunks.flatten := by
    show (match processChunk initStreamState chunks.flatten with
          | .ok st2 => runChunks st2 []
          | .error e => .error e) = _
    cases processChunk initStreamState chunks.flatten <;> rfl
  rw [h2]

/-- Witness for C2 (amended) on a concrete two-read chunking ending at
record boundaries. -/
theorem c2_record_boundary_chunking_witness :
    (∀ c ∈ [strChunk "data: \x7b\"type\":\"token\",\"content\":\"Hel\"\x7d\n",
            strChunk "data: \x7b\"type\":\"token\",\"content\":\"lo\"\x7d\n"],
      c = [] ∨ c.getLast? = some '\n') ∧
    streamConversationalSearch
        [strChunk "data: \x7b\"type\":\"token\",\"content\":\"Hel\"\x7d\n",
         strChunk "data: \x7b\"type\":\"token\",\"content\":\"lo\"\x7d\n"] =
      streamConversationalSearch
        [[strChunk "data: \x7b\"type\":\"token\",\"content\":\"Hel\"\x7d\n",
          strChunk "data: \x7b\"type\":\"token\",\"content\":\"lo\"\x7d\n"].flatten] :=
  ⟨by decide, c2_record_boundary_chunking _ (by decide)⟩

end AACSearch.Stream

namespace AACSearch.Realtime

/-- C5 counterexample: starting from attempt counter 0, five consecutive
closes schedule delays 2s, 4s, 8s, 16s, 30s — not the claimed 1s, 2s, 4s,
8s, 16s — because the counter is incremented before the delay is computed,
so `1000 * 2 ** attempts` is first evaluated at `attempts = 1`. -/
theorem c5_first_delay_counterexample :
    closeSeq 0 5 = [some 2000, some 4000, some 8000, some 16000, some 30000] ∧
    closeSeq 0 5 ≠ [some 1000, some 2000, some 4000, some 8000, some 16000] := by
  exact ⟨by decide, by decide⟩

/-- C5 (amended): from a fresh counter, consecutive unexpected closes
schedule reconnect delays 2s, 4s, 8s, 16s, 30s (each
`min(1000 * 2 ** attempts, 30000)` with the counter incremented first, the
fifth capped at 30s), and after the 5th failed attempt no further reconnect
is ever scheduled. -/
theorem c5_backoff_delays_amended :
    closeSeq 0 6 = [some 2000, some 4000, some 8000, some 16000, some 30000, none] ∧
    (∀ n : Nat, closeSeq maxReconnectAttempts n = List.replicate n none) := by
  refine ⟨by decide, ?_⟩
  intro n
  induction n with
  | zero => rfl
  | succ k ih =>
    rw [List.replicate_succ, ← ih]
    rfl

/-- C6: evaluation at the failing input.  From an authenticated session
(fresh counter, one subscription), a caller-initiated `disconnect()` clears
the subscription membership and is idempotent (a second call is a no-op,
not an error), but the socket's close event then fires and the onclose
handler — which has no intentional-close flag — schedules a reconnect after
2000 ms, contradicting the claim that a caller-initiated disconnect never
triggers a reconnect attempt. -/
theorem c6_disconnect_triggers_reconnect :
    wsRun { wsOpen := true, attempts := 0, connected := true, subs := ["products"] }
        [.disconnectCall, .transportClose] =
      ({ wsOpen := false, attempts := 1, connected := false, subs := [] },
        [none, some 2000]) ∧
    wsStep { wsOpen := false, attempts := 1, connected := false, subs := [] }
        .disconnectCall =
      ({ wsOpen := false, attempts := 1, connected := false, subs := [] }, none) := by
  exact ⟨by decide, by decide⟩

/-- C7 counterexample: in a trace with no `connected` acknowledgment frame
at all — open, close (counter becomes 1), reconnect and open again — the
attempt counter is back to 0: the transport `open` event reset it, not the
server's `connected` frame (under the claim the counter would still be 1,
and with no `connected` frame it could never return to 0). -/
theorem c7_reset_on_open_counterexample :
    (wsRun { wsOpen := true, attempts := 0, connected := false, subs := [] }
        [.transportOpen, .transportClose]).1.attempts = 1 ∧
    (wsRun { wsOpen := true, attempts := 0, connected := false, subs := [] }
        [.transportOpen, .transportClose, .transportOpen]).1.attempts = 0 ∧
    (wsRun { wsOpen := true, attempts := 0, connected := false, subs := [] }
        [.transportOpen, .transportClose, .transportOpen]).1.connected = false :=
  ⟨rfl, rfl, rfl⟩

/-- C7 (amended): the transport `open` event does not mark the session
authenticated (the hook's `connected` flag is untouched by `onopen`, so a
fresh connection stays unauthenticated until the server's `connected` frame
flips it to true) — but it is the `open` event, not the `connected` frame,
that resets the reconnect-attempt counter to zero: the `connected` frame
leaves the counter unchanged. -/
theorem c7_auth_and_reset_amended :
    ∀ s : WSState,
      ((wsStep s .transportOpen).1.connected = s.connected ∧
        (wsStep s .transportOpen).1.attempts = 0) ∧
      ((wsStep s (.frame .connected)).1.connected = true ∧
        (wsStep s (.frame .connected)).1.attempts = s.attempts) :=
  fun _ => ⟨⟨rfl, rfl⟩, ⟨rfl, rfl⟩⟩

end AACSearch.Realtime

namespace AACSearch.Conv

/-- C10: when `params.streaming` is true but no streaming options (sink)
are supplied, `conversationalSearch` silently takes the non-streaming path:
it returns the parsed body of the single POST to
`/api/v1/search/conversational`, independent of what the streaming callee
would have produced (so the streaming endpoint is never opened). -/
theorem c10_streaming_without_options_falls_back
    {α : Type} (params : ConversationalSearchParams)
    (req : String → String → α) (streamCall : α)
    (h : params.streaming = some true) :
    conversationalSearch params none req streamCall =
      req "POST" "/api/v1/search/conversational" := by
  unfold conversationalSearch
  rw [h]
  rfl

/-- Witness for C10 at a concrete call. -/
theorem c10_streaming_without_options_falls_back_witness :
    ({ conversation_id := none, message := "hi", collection := "docs",
       streaming := some true } : ConversationalSearchParams).streaming = some true ∧
    conversationalSearch
        { conversation_id := none, message := "hi", collection := "docs",
          streaming := some true }
        none (fun _ p => p) "streamed" =
      "/api/v1/search/conversational" :=
  ⟨rfl, by rw [c10_streaming_without_options_falls_back _ _ _ rfl]⟩

end AACSearch.Conv
